import Mathlib

/-!
Verification of the `last-fm-spotify-agent` tool layer
(`studio/lastfm_spotify_tools.py`): the Spotify client-credentials token
cache, the Last.fm and Spotify HTTP gateways, and the tool functions built
on them.

The Python module is shallowly embedded: decoded JSON values become an
inductive `Json` type, module-level mutable state (the token cache) becomes
an explicit state record `St` threaded through each function, and the
outside world (HTTP responses, the wall clock) becomes an explicit `World`
oracle indexed by how many network calls / clock reads have happened so
far. A raised Python exception becomes `Except.error` with a constructor
per raise site carrying exactly the data interpolated into that site's
message.
-/

namespace LastfmSpotify

/-- Decoded JSON values (Python objects produced by `response.json()`).
Floats do not occur in any behaviour modelled here and are omitted. -/
inductive Json where
  | null
  | bool (b : Bool)
  | str (s : String)
  | num (n : Int)
  | arr (items : List Json)
  | obj (fields : List (String × Json))
deriving Repr

/-- Lookup in a decoded JSON object, i.e. Python `dict.get(k)`
on a `Dict[str, Any]`. -/
def assocFind (fields : List (String × Json)) (k : String) : Option Json :=
  (fields.find? (fun p => p.1 == k)).map Prod.snd

/-- Python truthiness (`if not x`) for decoded JSON values. -/
def Json.pyTruthy : Json → Bool
  | .null => false
  | .bool b => b
  | .str s => !(s == "")
  | .num n => !(n == 0)
  | .arr items => !items.isEmpty
  | .obj fields => !fields.isEmpty

/-- Python `f"{x}"` / `str(x)` of a decoded JSON value. Containers are
abbreviated (no claim interpolates a container into a string). -/
def Json.pyStr : Json → String
  | .str s => s
  | .num n => toString n
  | .bool b => cond b "True" "False"
  | .null => "None"
  | .arr _ => "<list>"
  | .obj _ => "<dict>"

/-- One exception per raise site of the Python module, carrying exactly the
data that the site interpolates into its message (all sites raise bare
`Exception` with an f-string; the spec names these ConfigurationError,
AuthenticationError, UpstreamHttpError, UpstreamApiError). -/
inductive Err where
  /-- line 43: `"LASTFM_API_KEY environment variable is not set."` (constant message). -/
  | lastfmConfigError
  /-- line 52: `f"Last.fm HTTP {response.status_code}: {response.text}"`. -/
  | lastfmHttpError (status : Nat) (text : String)
  /-- line 56: `f"Last.fm error {data.get('error')}: {data.get('message')}"`. -/
  | lastfmApiError (code : Option Json) (message : Option Json)
  /-- lines 77-80: `"Spotify credentials are not configured. ..."` (constant message). -/
  | spotifyConfigError
  /-- line 94: `f"Spotify auth failed: {response.text}"` (only the body is interpolated). -/
  | spotifyAuthFailed (text : String)
  /-- line 134: `f"Spotify HTTP {response.status_code}: {response.text}"`. -/
  | spotifyHttpError (status : Nat) (text : String)
  /-- Python `KeyError` from a `d[k]` subscript with `k` missing. -/
  | keyError (key : String)
  /-- Python `TypeError` (e.g. `int(None)`, subscripting a non-container). -/
  | typeError
  /-- Python `ValueError` (e.g. `int("abc")`). -/
  | valueError
  /-- Python `AttributeError` (`.get` on a non-dict). -/
  | attrError
  /-- Python `IndexError` (`xs[0]` on an empty sequence). -/
  | indexError
deriving Repr

/-- Python `int(x)` on a decoded JSON value. -/
def pyInt : Json → Except Err Int
  | .num n => .ok n
  | .str s =>
    match s.toInt? with
    | some n => .ok n
    | none => .error .valueError
  | .bool b => .ok (cond b 1 0)
  | _ => .error .typeError

/-- Python `x.get(k, d)` on a decoded JSON value: `AttributeError` unless
`x` is a dict. -/
def Json.pyGetD (j : Json) (k : String) (d : Json) : Except Err Json :=
  match j with
  | .obj fields => .ok ((assocFind fields k).getD d)
  | _ => .error .attrError

/-- Python `x[0]` on a decoded JSON value. -/
def pyIndex0 : Json → Except Err Json
  | .arr (a :: _) => .ok a
  | .arr [] => .error .indexError
  | .str s => if s.isEmpty then .error .indexError else .ok (.str (String.singleton s.front))
  | .obj _ => .error (.keyError "0")
  | _ => .error .typeError

/-- Python `x[k]` (string subscript) on a decoded JSON value. -/
def pySubscript (j : Json) (k : String) : Except Err Json :=
  match j with
  | .obj fields =>
    match assocFind fields k with
    | some v => .ok v
    | none => .error (.keyError k)
  | _ => .error .typeError

/-- A query-parameter value (the Python call sites pass strings and ints). -/
inductive Value where
  | str (s : String)
  | int (n : Int)
deriving Repr, DecidableEq

/-- An HTTP response as the module observes it: `response.status_code`,
`response.text`, and `response.json()` (annotated `Dict[str, Any]` at every
decode site in the source, hence an object). -/
structure HttpResp where
  status : Nat
  text : String
  body : List (String × Json)

/-- An outbound HTTP request issued by the module, as observable at the
`requests.get` / `requests.post` call sites. -/
inductive Request where
  /-- `requests.get(LASTFM_BASE_URL, params={**base_params, **params})`. -/
  | lastfmGet (params : List (String × Value))
  /-- `requests.post(auth_url, data=auth_data)`. -/
  | spotifyTokenPost (data : List (String × String))
  /-- `requests.get(f"https://api.spotify.com/v1{endpoint}", headers=..., params=params)`. -/
  | spotifyGet (endpoint : String) (params : Option (List (String × Value))) (bearer : String)

/-- The environment: the response to the k-th HTTP call made by the process
and the value of the k-th `datetime.now()` read. -/
structure World where
  net : Nat → HttpResp
  clock : Nat → Int

/-- The module-level credentials (read once by `os.getenv`; `None` when the
variable is unset). -/
structure Config where
  lastfmApiKey : Option String
  spotifyClientId : Option String
  spotifyClientSecret : Option String

/-- The cached Spotify token dict: `{"token": ..., "expires_at": ...}`.
The token is stored as the raw JSON value of `token_data["access_token"]`. -/
structure CachedToken where
  token : Json
  expiresAt : Int

/-- Process state threaded through each call: the module-level
`_spotify_token_cache`, how many HTTP calls and clock reads have happened,
and the log of requests issued so far. -/
structure St where
  cache : Option CachedToken
  netCalls : Nat
  clockReads : Nat
  log : List Request

/-- Python truthiness of an optional environment string
(`not LASTFM_API_KEY`: `None` and `""` are falsy). -/
def envSet : Option String → Bool
  | none => false
  | some s => !(s == "")

/-- Issue one HTTP request: consume the next scripted response, log the
request. -/
def issueRequest (w : World) (s : St) (req : Request) : HttpResp × St :=
  (w.net s.netCalls,
   { s with netCalls := s.netCalls + 1, log := s.log ++ [req] })

/-- One `datetime.now()` read. -/
def readClock (w : World) (s : St) : Int × St :=
  (w.clock s.clockReads, { s with clockReads := s.clockReads + 1 })

/-- Python `{**a, **b}` on string-keyed dicts represented as key-distinct
association lists: keys of `a` in order (values overridden by `b` where
present), then keys of `b` not in `a`, in order. -/
def dictMerge (a b : List (String × Value)) : List (String × Value) :=
  (a.map fun p => (p.1, ((b.find? fun q => q.1 == p.1).map Prod.snd).getD p.2))
    ++ b.filter fun q => (a.find? fun p => p.1 == q.1).isNone

/-- `_lastfm_get(params)`: add `api_key` and `format=json`, issue the GET,
raise on non-200 status or an `error` field in the 200 body. -/
def lastfmGet (cfg : Config) (w : World) (s : St) (params : List (String × Value)) :
    Except Err (List (String × Json)) × St :=
  if !(envSet cfg.lastfmApiKey) then
    (.error .lastfmConfigError, s)
  else
    let baseParams : List (String × Value) :=
      [("api_key", .str (cfg.lastfmApiKey.getD "")), ("format", .str "json")]
    let r := issueRequest w s (.lastfmGet (dictMerge baseParams params))
    let response := r.1
    let s1 := r.2
    if response.status != 200 then
      (.error (.lastfmHttpError response.status response.text), s1)
    else
      let data := response.body
      if (assocFind data "error").isSome then
        (.error (.lastfmApiError (assocFind data "error") (assocFind data "message")), s1)
      else
        (.ok data, s1)

/-- The `auth_data` dict of `_get_spotify_token`. -/
def spotifyTokenRequestBody (cfg : Config) : List (String × String) :=
  [("grant_type", "client_credentials"),
   ("client_id", cfg.spotifyClientId.getD ""),
   ("client_secret", cfg.spotifyClientSecret.getD "")]

/-- The provider-declared token lifetime as the source computes it:
`int(token_data.get("expires_in", 3600))`. -/
def declaredLifetime (response : HttpResp) : Except Err Int :=
  pyInt ((assocFind response.body "expires_in").getD (.num 3600))

/-- Lines 85-103 of `_get_spotify_token`: POST to the token endpoint,
raise on non-200, then compute `expires_in`, read `access_token`
(KeyError if absent), take `datetime.now()`, and replace the cache
wholesale. Evaluation order follows the source: line 97's `int(...)`
runs before the dict literal reads `access_token` and the clock. -/
def spotifyTokenRefresh (cfg : Config) (w : World) (s : St) : Except Err Json × St :=
  let r := issueRequest w s (.spotifyTokenPost (spotifyTokenRequestBody cfg))
  let response := r.1
  let s1 := r.2
  if response.status != 200 then
    (.error (.spotifyAuthFailed response.text), s1)
  else
    match declaredLifetime response with
    | .error e => (.error e, s1)
    | .ok expiresIn =>
      match assocFind response.body "access_token" with
      | none => (.error (.keyError "access_token"), s1)
      | some token =>
        let c := readClock w s1
        let now := c.1
        let s2 := c.2
        (.ok token,
         { s2 with cache := some { token := token, expiresAt := now + (expiresIn - 60) } })

/-- `_get_spotify_token()`: credentials check, cache fast path
(`_spotify_token_cache and _spotify_token_cache["expires_at"] > datetime.now()`,
where the cache dict is always non-empty hence truthy when present),
otherwise refresh. -/
def getSpotifyToken (cfg : Config) (w : World) (s : St) : Except Err Json × St :=
  if !(envSet cfg.spotifyClientId) || !(envSet cfg.spotifyClientSecret) then
    (.error .spotifyConfigError, s)
  else
    match s.cache with
    | some entry =>
      let c := readClock w s
      let now := c.1
      let s1 := c.2
      if entry.expiresAt > now then
        (.ok entry.token, s1)
      else
        spotifyTokenRefresh cfg w s1
    | none => spotifyTokenRefresh cfg w s

/-- `_spotify_get(endpoint, params)`: obtain a token, issue the GET with a
bearer header, raise on non-200. -/
def spotifyGet (cfg : Config) (w : World) (s : St) (endpoint : String)
    (params : Option (List (String × Value)) := none) :
    Except Err (List (String × Json)) × St :=
  match getSpotifyToken cfg w s with
  | (.error e, s1) => (.error e, s1)
  | (.ok token, s1) =>
    let r := issueRequest w s1 (.spotifyGet endpoint params token.pyStr)
    let response := r.1
    let s2 := r.2
    if response.status != 200 then
      (.error (.spotifyHttpError response.status response.text), s2)
    else
      (.ok response.body, s2)

/-- `get_lastfm_user_info(username)`. -/
def get_lastfm_user_info (cfg : Config) (w : World) (s : St) (username : String) :
    Except Err (List (String × Json)) × St :=
  lastfmGet cfg w s [("method", .str "user.getInfo"), ("user", .str username)]

/-- `get_artist_info(artist_name)`. -/
def get_artist_info (cfg : Config) (w : World) (s : St) (artist_name : String) :
    Except Err (List (String × Json)) × St :=
  lastfmGet cfg w s [("method", .str "artist.getInfo"), ("artist", .str artist_name)]

/-- `get_track_info(artist_name, track_name)`. -/
def get_track_info (cfg : Config) (w : World) (s : St)
    (artist_name track_name : String) :
    Except Err (List (String × Json)) × St :=
  lastfmGet cfg w s
    [("method", .str "track.getInfo"),
     ("artist", .str artist_name),
     ("track", .str track_name)]

/-- `get_lastfm_user_top_artists(username, period="overall", limit=50, page=1)`. -/
def get_lastfm_user_top_artists (cfg : Config) (w : World) (s : St) (username : String)
    (period : String := "overall") (limit : Int := 50) (page : Int := 1) :
    Except Err (List (String × Json)) × St :=
  lastfmGet cfg w s
    [("method", .str "user.getTopArtists"),
     ("user", .str username),
     ("period", .str period),
     ("limit", .int limit),
     ("page", .int page)]

/-- `search_artists_by_genre(genre, limit=20)`. -/
def search_artists_by_genre (cfg : Config) (w : World) (s : St) (genre : String)
    (limit : Int := 20) : Except Err (List (String × Json)) × St :=
  spotifyGet cfg w s "/search"
    (some [("q", .str ("genre:\"" ++ genre ++ "\"")),
           ("type", .str "artist"),
           ("limit", .int limit)])

/-- `get_artist_details(artist_id)`. -/
def get_artist_details (cfg : Config) (w : World) (s : St) (artist_id : String) :
    Except Err (List (String × Json)) × St :=
  spotifyGet cfg w s ("/artists/" ++ artist_id)

/-- `get_artist_top_tracks(artist_id, market="US")`. -/
def get_artist_top_tracks (cfg : Config) (w : World) (s : St) (artist_id : String)
    (market : String := "US") : Except Err (List (String × Json)) × St :=
  spotifyGet cfg w s ("/artists/" ++ artist_id ++ "/top-tracks")
    (some [("market", .str market)])

/-- `get_artist_albums(artist_id, limit=20, include_groups="album")`. -/
def get_artist_albums (cfg : Config) (w : World) (s : St) (artist_id : String)
    (limit : Int := 20) (include_groups : String := "album") :
    Except Err (List (String × Json)) × St :=
  spotifyGet cfg w s ("/artists/" ++ artist_id ++ "/albums")
    (some [("limit", .int limit), ("include_groups", .str include_groups)])

/-- `search_artist_by_name(artist_name, limit=10)`. -/
def search_artist_by_name (cfg : Config) (w : World) (s : St) (artist_name : String)
    (limit : Int := 10) : Except Err (List (String × Json)) × St :=
  spotifyGet cfg w s "/search"
    (some [("q", .str artist_name), ("type", .str "artist"), ("limit", .int limit)])

/-- `get_artist_details_by_name(artist_name)`: search with limit 1, return
`None` when `search_results.get("artists", {}).get("items", [])` is falsy,
otherwise fetch details for `artists[0]["id"]`. -/
def get_artist_details_by_name (cfg : Config) (w : World) (s : St) (artist_name : String) :
    Except Err (Option (List (String × Json))) × St :=
  match search_artist_by_name cfg w s artist_name 1 with
  | (.error e, s1) => (.error e, s1)
  | (.ok searchResults, s1) =>
    match Json.pyGetD ((assocFind searchResults "artists").getD (.obj [])) "items" (.arr []) with
    | .error e => (.error e, s1)
    | .ok artists =>
      if !artists.pyTruthy then
        (.ok none, s1)
      else
        match pyIndex0 artists with
        | .error e => (.error e, s1)
        | .ok firstArtist =>
          match pySubscript firstArtist "id" with
          | .error e => (.error e, s1)
          | .ok artistId =>
            match get_artist_details cfg w s1 artistId.pyStr with
            | (.error e, s2) => (.error e, s2)
            | (.ok details, s2) => (.ok (some details), s2)

/-- Cache well-formedness: whenever the token cache is populated, its
`expires_at` equals some earlier clock reading (the acquisition time) plus
the lifetime declared by some earlier successful token response, minus the
60-second margin. -/
def cacheConsistent (w : World) (s : St) : Prop :=
  ∀ entry, s.cache = some entry →
    ∃ k j lifetime, k < s.netCalls ∧ j < s.clockReads ∧
      declaredLifetime (w.net k) = .ok lifetime ∧
      entry.expiresAt = w.clock j + (lifetime - 60)

/-! Concrete fixtures used to instantiate theorems with hypotheses. -/

/-- All three credentials configured. -/
def cfg₀ : Config :=
  { lastfmApiKey := some "lfmkey",
    spotifyClientId := some "cid",
    spotifyClientSecret := some "csec" }

/-- The Spotify client secret is unset. -/
def cfgNoSecret : Config :=
  { lastfmApiKey := some "lfmkey",
    spotifyClientId := some "cid",
    spotifyClientSecret := none }

/-- Initial state: empty cache, nothing issued yet. -/
def st₀ : St := { cache := none, netCalls := 0, clockReads := 0, log := [] }

/-- A state holding a cached token that expires at time 1000. -/
def freshSt : St :=
  { cache := some { token := .str "tok0", expiresAt := 1000 },
    netCalls := 0, clockReads := 0, log := [] }

/-- A world whose clock is stuck at 0 and whose responses are empty 200s. -/
def idleWorld : World :=
  { net := fun _ => { status := 200, text := "", body := [] },
    clock := fun _ => 0 }

/-- A world answering every request with HTTP 500, body `"denied"`. -/
def failWorld500 : World :=
  { net := fun _ => { status := 500, text := "denied", body := [] },
    clock := fun _ => 0 }

/-- A world answering every request with HTTP 400, body `"denied"`. -/
def failWorld400 : World :=
  { net := fun _ => { status := 400, text := "denied", body := [] },
    clock := fun _ => 0 }

/-- A world whose token endpoint declares `expires_in = 0`, clock at 1000. -/
def zeroLifetimeWorld : World :=
  { net := fun _ =>
      { status := 200, text := "",
        body := [("access_token", .str "tokA"), ("expires_in", .num 0)] },
    clock := fun _ => 1000 }

/-- A world whose token endpoint omits `expires_in`, clock at 1000. -/
def noLifetimeWorld : World :=
  { net := fun _ =>
      { status := 200, text := "",
        body := [("access_token", .str "tokA")] },
    clock := fun _ => 1000 }

/-- A world whose token endpoint declares a 3600-second lifetime. -/
def tokenWorld : World :=
  { net := fun _ =>
      { status := 200, text := "",
        body := [("access_token", .str "tokA"), ("expires_in", .num 3600)] },
    clock := fun _ => 1000 }

/-- A Spotify world whose search returns zero items. -/
def emptySearchWorld : World :=
  { net := fun _ =>
      { status := 200, text := "",
        body := [("artists", .obj [("items", .arr [])])] },
    clock := fun _ => 0 }

/-- A Spotify world whose search (call 0) returns one artist and whose
details endpoint (call 1) returns that artist's record. -/
def searchWorld : World :=
  { net := fun k =>
      if k = 0 then
        { status := 200, text := "",
          body := [("artists", .obj [("items", .arr
            [.obj [("id", .str "2ye2Wgw4gimLv2eAKyk1NB"),
                   ("name", .str "Metallica")]])])] }
      else
        { status := 200, text := "",
          body := [("id", .str "2ye2Wgw4gimLv2eAKyk1NB"),
                   ("followers", .num 125)] },
    clock := fun _ => 0 }

/-- A Last.fm world: HTTP 200 whose body carries a provider error. -/
def lastfmErrWorld : World :=
  { net := fun _ =>
      { status := 200, text := "",
        body := [("error", .num 6), ("message", .str "User not found")] },
    clock := fun _ => 0 }

/-! ## Theorems -/

/-- Path lemma: missing credentials short-circuit `_get_spotify_token`. -/
theorem getSpotifyToken_path_config (cfg : Config) (w : World) (s : St)
    (h : (!(envSet cfg.spotifyClientId) || !(envSet cfg.spotifyClientSecret)) = true) :
    getSpotifyToken cfg w s = (.error .spotifyConfigError, s) := by
  unfold getSpotifyToken
  simp [h]

/-- Path lemma: with credentials and an empty cache, `_get_spotify_token`
is the refresh. -/
theorem getSpotifyToken_path_none (cfg : Config) (w : World) (s : St)
    (h : (!(envSet cfg.spotifyClientId) || !(envSet cfg.spotifyClientSecret)) = false)
    (hc : s.cache = none) :
    getSpotifyToken cfg w s = spotifyTokenRefresh cfg w s := by
  unfold getSpotifyToken
  simp [h, hc]

/-- Path lemma: with credentials and a strictly fresh cached token,
`_get_spotify_token` returns it after one clock read. -/
theorem getSpotifyToken_path_fresh (cfg : Config) (w : World) (s : St)
    (entry : CachedToken)
    (h : (!(envSet cfg.spotifyClientId) || !(envSet cfg.spotifyClientSecret)) = false)
    (hc : s.cache = some entry)
    (hf : w.clock s.clockReads < entry.expiresAt) :
    getSpotifyToken cfg w s =
      (.ok entry.token, { s with clockReads := s.clockReads + 1 }) := by
  unfold getSpotifyToken readClock
  simp [h, hc, hf]

/-- Path lemma: with credentials and a cached token that is not strictly
fresh, `_get_spotify_token` reads the clock once and refreshes. -/
theorem getSpotifyToken_path_stale (cfg : Config) (w : World) (s : St)
    (entry : CachedToken)
    (h : (!(envSet cfg.spotifyClientId) || !(envSet cfg.spotifyClientSecret)) = false)
    (hc : s.cache = some entry)
    (hf : entry.expiresAt ≤ w.clock s.clockReads) :
    getSpotifyToken cfg w s =
      spotifyTokenRefresh cfg w { s with clockReads := s.clockReads + 1 } := by
  unfold getSpotifyToken readClock
  simp [h, hc, not_lt.mpr hf]

/-- Exhaustive characterization of one refresh: it consumes exactly one
network call and either fails leaving the cache as it was, or succeeds and
replaces the cache wholesale with the fresh token and
`expires_at = now + (declared lifetime − 60)`. -/
theorem spotifyTokenRefresh_cases (cfg : Config) (w : World) (s : St) :
    ((spotifyTokenRefresh cfg w s).2.cache = s.cache ∧
      (spotifyTokenRefresh cfg w s).2.netCalls = s.netCalls + 1 ∧
      (spotifyTokenRefresh cfg w s).2.clockReads = s.clockReads ∧
      ∃ e, (spotifyTokenRefresh cfg w s).1 = .error e) ∨
    (∃ lifetime token,
      declaredLifetime (w.net s.netCalls) = .ok lifetime ∧
      (spotifyTokenRefresh cfg w s).1 = .ok token ∧
      (spotifyTokenRefresh cfg w s).2.cache =
        some { token := token, expiresAt := w.clock s.clockReads + (lifetime - 60) } ∧
      (spotifyTokenRefresh cfg w s).2.netCalls = s.netCalls + 1 ∧
      (spotifyTokenRefresh cfg w s).2.clockReads = s.clockReads + 1) := by
  unfold spotifyTokenRefresh issueRequest readClock
  by_cases h1 : ((w.net s.netCalls).status != 200) = true
  · left
    simp [h1]
  · cases h2 : declaredLifetime (w.net s.netCalls) with
    | error e =>
      left
      simp [h1, h2]
    | ok lifetime =>
      cases h3 : assocFind (w.net s.netCalls).body "access_token" with
      | none =>
        left
        simp [h1, h2, h3]
      | some token =>
        right
        refine ⟨lifetime, token, rfl, ?_, ?_, ?_, ?_⟩ <;> simp [h1, h2, h3]

/-- C1: with credentials configured, a call to `_get_spotify_token` made
while a cached token exists and the current time is strictly before its
`expires_at` returns the cached token and changes nothing but the clock-read
count: no network request is issued (`netCalls` and `log` are unchanged), so
a second call within the lifetime window issues zero network calls and
returns the identical token as the first. -/
theorem getSpotifyToken_cache_hit (cfg : Config) (w : World) (s : St)
    (entry : CachedToken)
    (hid : envSet cfg.spotifyClientId = true)
    (hsec : envSet cfg.spotifyClientSecret = true)
    (hcache : s.cache = some entry)
    (hfresh : w.clock s.clockReads < entry.expiresAt) :
    getSpotifyToken cfg w s =
      (.ok entry.token, { s with clockReads := s.clockReads + 1 }) := by
  unfold getSpotifyToken readClock
  simp [hid, hsec, hcache, hfresh]

theorem getSpotifyToken_cache_hit_witness :
    getSpotifyToken cfg₀ idleWorld freshSt =
      (.ok (.str "tok0"), { freshSt with clockReads := freshSt.clockReads + 1 }) :=
  getSpotifyToken_cache_hit cfg₀ idleWorld freshSt
    { token := .str "tok0", expiresAt := 1000 } rfl rfl rfl (by decide)

/-- C9: if either Spotify credential is absent (unset or empty), every call
to `_get_spotify_token` fails with the configuration error and leaves the
state untouched — in particular no network request is issued. The check
happens per call (first use), not at module import. -/
theorem getSpotifyToken_missing_credentials (cfg : Config) (w : World) (s : St)
    (h : envSet cfg.spotifyClientId = false ∨ envSet cfg.spotifyClientSecret = false) :
    getSpotifyToken cfg w s = (.error .spotifyConfigError, s) := by
  unfold getSpotifyToken
  rcases h with h | h <;> simp [h]

theorem getSpotifyToken_missing_credentials_witness :
    getSpotifyToken cfgNoSecret idleWorld st₀ = (.error .spotifyConfigError, st₀) :=
  getSpotifyToken_missing_credentials cfgNoSecret idleWorld st₀ (Or.inr rfl)

/-- Helper: when a refresh is attempted (no cached token, or the cached
token is not strictly fresh) and the token endpoint answers non-200,
`getSpotifyToken` fails with the auth error carrying the response body,
consumes exactly one network call, and leaves the cache untouched. -/
theorem getSpotifyToken_stale_fail_aux (cfg : Config) (w : World) (s : St)
    (hid : envSet cfg.spotifyClientId = true)
    (hsec : envSet cfg.spotifyClientSecret = true)
    (hstale : s.cache = none ∨
      ∃ entry, s.cache = some entry ∧ entry.expiresAt ≤ w.clock s.clockReads)
    (hfail : (w.net s.netCalls).status ≠ 200) :
    (getSpotifyToken cfg w s).1 = .error (.spotifyAuthFailed (w.net s.netCalls).text) ∧
    (getSpotifyToken cfg w s).2.cache = s.cache ∧
    (getSpotifyToken cfg w s).2.netCalls = s.netCalls + 1 := by
  unfold getSpotifyToken spotifyTokenRefresh issueRequest readClock
  rcases hstale with h | ⟨entry, h, hle⟩
  · simp [h, hid, hsec, hfail]
  · simp [h, hid, hsec, not_lt.mpr hle, hfail]

/-- C10: a failed token refresh (non-200 from the token endpoint) raises
without modifying the token cache: the cache entry, or its absence, is
exactly the same after the failed call as before it. -/
theorem getSpotifyToken_failed_refresh_preserves_cache (cfg : Config) (w : World) (s : St)
    (hid : envSet cfg.spotifyClientId = true)
    (hsec : envSet cfg.spotifyClientSecret = true)
    (hstale : s.cache = none ∨
      ∃ entry, s.cache = some entry ∧ entry.expiresAt ≤ w.clock s.clockReads)
    (hfail : (w.net s.netCalls).status ≠ 200) :
    (getSpotifyToken cfg w s).2.cache = s.cache ∧
    (getSpotifyToken cfg w s).1 = .error (.spotifyAuthFailed (w.net s.netCalls).text) :=
  have h := getSpotifyToken_stale_fail_aux cfg w s hid hsec hstale hfail
  ⟨h.2.1, h.1⟩

theorem getSpotifyToken_failed_refresh_preserves_cache_witness :
    (getSpotifyToken cfg₀ failWorld500 st₀).2.cache = st₀.cache ∧
    (getSpotifyToken cfg₀ failWorld500 st₀).1 = .error (.spotifyAuthFailed "denied") :=
  getSpotifyToken_failed_refresh_preserves_cache cfg₀ failWorld500 st₀
    rfl rfl (Or.inl rfl) (by decide)

/-- C4 counterexample: the auth-failure error raised by
`_get_spotify_token` does not carry the provider's status. Two worlds that
differ only in the failing status (400 vs 500) produce bitwise-identical
results — the raised error (`"Spotify auth failed: denied"`) interpolates
only the body, so it cannot determine the status. -/
theorem spotifyAuth_error_lacks_status_counterexample :
    (failWorld400.net 0).status = 400 ∧
    (failWorld500.net 0).status = 500 ∧
    getSpotifyToken cfg₀ failWorld400 st₀ = getSpotifyToken cfg₀ failWorld500 st₀ ∧
    (getSpotifyToken cfg₀ failWorld400 st₀).1 = .error (.spotifyAuthFailed "denied") :=
  ⟨rfl, rfl, rfl, rfl⟩

/-- C4 amended: for every non-success status and body returned by the
Spotify token endpoint, `_get_spotify_token` fails with an authentication
error that carries the provider's body (`response.text`); the status code
is not included in the error. -/
theorem spotifyAuth_error_carries_body (cfg : Config) (w : World) (s : St)
    (hid : envSet cfg.spotifyClientId = true)
    (hsec : envSet cfg.spotifyClientSecret = true)
    (hstale : s.cache = none ∨
      ∃ entry, s.cache = some entry ∧ entry.expiresAt ≤ w.clock s.clockReads)
    (hfail : (w.net s.netCalls).status ≠ 200) :
    (getSpotifyToken cfg w s).1 = .error (.spotifyAuthFailed (w.net s.netCalls).text) :=
  (getSpotifyToken_stale_fail_aux cfg w s hid hsec hstale hfail).1

theorem spotifyAuth_error_carries_body_witness :
    (getSpotifyToken cfg₀ failWorld400 st₀).1 = .error (.spotifyAuthFailed "denied") :=
  spotifyAuth_error_carries_body cfg₀ failWorld400 st₀ rfl rfl (Or.inl rfl) (by decide)

/-- C5: a Last.fm call answered with HTTP 200 whose decoded body carries an
`error` field raises the provider-level API error with the provider's code
and message (the body is not returned as success), and that error is not
the HTTP-status error raised for non-200 responses. -/
theorem lastfmGet_error_field_raises_api_error (cfg : Config) (w : World) (s : St)
    (params : List (String × Value)) (code : Json)
    (hkey : envSet cfg.lastfmApiKey = true)
    (hstatus : (w.net s.netCalls).status = 200)
    (herr : assocFind (w.net s.netCalls).body "error" = some code) :
    (lastfmGet cfg w s params).1 =
      .error (.lastfmApiError (some code) (assocFind (w.net s.netCalls).body "message")) ∧
    (lastfmGet cfg w s params).1 ≠
      .error (.lastfmHttpError (w.net s.netCalls).status (w.net s.netCalls).text) := by
  have hmain : (lastfmGet cfg w s params).1 =
      .error (.lastfmApiError (some code) (assocFind (w.net s.netCalls).body "message")) := by
    unfold lastfmGet issueRequest
    simp [hkey, hstatus, herr]
  refine ⟨hmain, ?_⟩
  rw [hmain]
  intro h
  exact Err.noConfusion (Except.error.inj h)

theorem lastfmGet_error_field_raises_api_error_witness :
    (lastfmGet cfg₀ lastfmErrWorld st₀ [("method", .str "user.getInfo")]).1 =
      .error (.lastfmApiError (some (.num 6))
        (assocFind (lastfmErrWorld.net 0).body "message")) ∧
    (lastfmGet cfg₀ lastfmErrWorld st₀ [("method", .str "user.getInfo")]).1 ≠
      .error (.lastfmHttpError (lastfmErrWorld.net 0).status (lastfmErrWorld.net 0).text) :=
  lastfmGet_error_field_raises_api_error cfg₀ lastfmErrWorld st₀
    [("method", .str "user.getInfo")] (.num 6) rfl rfl rfl

/-- C6: a Last.fm or Spotify resource call answered with a non-200 status
raises the HTTP error carrying that exact status code and the raw response
body; the call never returns success for such a response. -/
theorem gateway_non200_raises_http_error :
    (∀ (cfg : Config) (w : World) (s : St) (params : List (String × Value)),
      envSet cfg.lastfmApiKey = true →
      (w.net s.netCalls).status ≠ 200 →
      (lastfmGet cfg w s params).1 =
        .error (.lastfmHttpError (w.net s.netCalls).status (w.net s.netCalls).text)) ∧
    (∀ (cfg : Config) (w : World) (s : St) (endpoint : String)
        (params : Option (List (String × Value))) (token : Json) (s1 : St),
      getSpotifyToken cfg w s = (.ok token, s1) →
      (w.net s1.netCalls).status ≠ 200 →
      (spotifyGet cfg w s endpoint params).1 =
        .error (.spotifyHttpError (w.net s1.netCalls).status (w.net s1.netCalls).text)) := by
  constructor
  · intro cfg w s params hkey hfail
    unfold lastfmGet issueRequest
    simp [hkey, hfail]
  · intro cfg w s endpoint params token s1 htok hfail
    unfold spotifyGet issueRequest
    rw [htok]
    simp [hfail]

theorem gateway_non200_raises_http_error_witness :
    (lastfmGet cfg₀ failWorld500 st₀ [("method", .str "user.getInfo")]).1 =
      .error (.lastfmHttpError 500 "denied") ∧
    (spotifyGet cfg₀ failWorld500 freshSt "/search" none).1 =
      .error (.spotifyHttpError 500 "denied") :=
  ⟨gateway_non200_raises_http_error.1 cfg₀ failWorld500 st₀
      [("method", .str "user.getInfo")] rfl (by decide),
   gateway_non200_raises_http_error.2 cfg₀ failWorld500 freshSt "/search" none
      (.str "tok0") { freshSt with clockReads := freshSt.clockReads + 1 } rfl (by decide)⟩

/-- C3 counterexample: a provider token response that declares
`expires_in = 0` is NOT defaulted to 3600. With the clock at 1000, the
stored `expires_at` is `1000 + (0 - 60) = 940`, not `1000 + 3600 - 60`:
`dict.get("expires_in", 3600)` only substitutes the default when the key is
missing, and `0` is present. -/
theorem expiresIn_zero_not_defaulted_counterexample :
    (getSpotifyToken cfg₀ zeroLifetimeWorld st₀).2.cache =
      some { token := .str "tokA", expiresAt := 1000 + (0 - 60) } ∧
    (1000 + (0 - 60) : Int) ≠ 1000 + 3600 - 60 :=
  ⟨rfl, by decide⟩

/-- C3 amended: a token response whose `expires_in` key is missing is
defaulted to 3600 seconds before the 60-second margin, storing
`expires_at = now + 3600 − 60`; a declared `expires_in` of 0 is not
defaulted but used as-is, storing `expires_at = now + 0 − 60` (the token
arrives already expired). -/
theorem declaredLifetime_defaulting_amended (cfg : Config) (w : World) (s : St)
    (tok : Json)
    (hid : envSet cfg.spotifyClientId = true)
    (hsec : envSet cfg.spotifyClientSecret = true)
    (hnone : s.cache = none)
    (hstatus : (w.net s.netCalls).status = 200)
    (htok : assocFind (w.net s.netCalls).body "access_token" = some tok) :
    (assocFind (w.net s.netCalls).body "expires_in" = none →
      (getSpotifyToken cfg w s).2.cache =
        some { token := tok, expiresAt := w.clock s.clockReads + (3600 - 60) }) ∧
    (assocFind (w.net s.netCalls).body "expires_in" = some (.num 0) →
      (getSpotifyToken cfg w s).2.cache =
        some { token := tok, expiresAt := w.clock s.clockReads + (0 - 60) }) := by
  constructor <;> intro hexp <;>
  · unfold getSpotifyToken spotifyTokenRefresh issueRequest readClock declaredLifetime pyInt
    simp [hnone, hid, hsec, hstatus, htok, hexp]

theorem declaredLifetime_defaulting_amended_witness :
    (getSpotifyToken cfg₀ noLifetimeWorld st₀).2.cache =
      some { token := .str "tokA", expiresAt := 1000 + (3600 - 60) } ∧
    (getSpotifyToken cfg₀ zeroLifetimeWorld st₀).2.cache =
      some { token := .str "tokA", expiresAt := 1000 + (0 - 60) } :=
  ⟨(declaredLifetime_defaulting_amended cfg₀ noLifetimeWorld st₀ (.str "tokA")
      rfl rfl rfl rfl rfl).1 rfl,
   (declaredLifetime_defaulting_amended cfg₀ zeroLifetimeWorld st₀ (.str "tokA")
      rfl rfl rfl rfl rfl).2 rfl⟩

/-- Helper: with the API key configured, every `_lastfm_get` call logs
exactly one request, carrying the Python merge `{**base_params, **params}`
of the key/format base parameters with the caller's parameters. -/
theorem lastfmGet_log_aux (cfg : Config) (w : World) (s : St)
    (params : List (String × Value)) (k : String)
    (hkey : cfg.lastfmApiKey = some k) (hne : (k == "") = false) :
    (lastfmGet cfg w s params).2.log =
      s.log ++ [.lastfmGet
        (dictMerge [("api_key", .str k), ("format", .str "json")] params)] := by
  unfold lastfmGet issueRequest
  rw [hkey]
  simp only [envSet, hne, Bool.not_false, Bool.not_true, if_false, Option.getD_some]
  split
  · simp_all
  · split
    · rfl
    · split <;> rfl

/-- C8: `get_lastfm_user_top_artists` issues a single request whose
parameter mapping is exactly `api_key`, `format=json`,
`method=user.getTopArtists`, and the supplied `user`, `period`, `limit`,
`page` — nothing else; and when `period`, `limit`, `page` are omitted they
default to `"overall"`, 50 and 1. -/
theorem get_lastfm_user_top_artists_request (cfg : Config) (w : World) (s : St)
    (k : String) (hkey : cfg.lastfmApiKey = some k) (hne : k ≠ "") :
    (∀ (username period : String) (limit page : Int),
      (get_lastfm_user_top_artists cfg w s username period limit page).2.log =
        s.log ++ [.lastfmGet
          [("api_key", .str k), ("format", .str "json"),
           ("method", .str "user.getTopArtists"), ("user", .str username),
           ("period", .str period), ("limit", .int limit), ("page", .int page)]]) ∧
    (get_lastfm_user_top_artists cfg w s "alice").2.log =
      s.log ++ [.lastfmGet
        [("api_key", .str k), ("format", .str "json"),
         ("method", .str "user.getTopArtists"), ("user", .str "alice"),
         ("period", .str "overall"), ("limit", .int 50), ("page", .int 1)]] := by
  have hb : (k == "") = false := beq_eq_false_iff_ne.mpr hne
  constructor
  · intro username period limit page
    unfold get_lastfm_user_top_artists
    rw [lastfmGet_log_aux cfg w s _ k hkey hb]
    rfl
  · unfold get_lastfm_user_top_artists
    rw [lastfmGet_log_aux cfg w s _ k hkey hb]
    rfl

theorem get_lastfm_user_top_artists_request_witness :
    (get_lastfm_user_top_artists cfg₀ idleWorld st₀ "alice" "7day" 10 2).2.log =
      st₀.log ++ [.lastfmGet
        [("api_key", .str "lfmkey"), ("format", .str "json"),
         ("method", .str "user.getTopArtists"), ("user", .str "alice"),
         ("period", .str "7day"), ("limit", .int 10), ("page", .int 2)]] :=
  (get_lastfm_user_top_artists_request cfg₀ idleWorld st₀ "lfmkey" rfl
    (by decide)).1 "alice" "7day" 10 2

/-- Helper: with credentials and a strictly fresh cached token, a Spotify
resource call answered 200 returns the decoded body and consumes exactly
one network call and one clock read; the logged request carries the
endpoint, the parameters, and the cached bearer token. -/
theorem spotifyGet_hit_aux (cfg : Config) (w : World) (s : St)
    (endpoint : String) (params : Option (List (String × Value)))
    (entry : CachedToken)
    (hcfg : (!(envSet cfg.spotifyClientId) || !(envSet cfg.spotifyClientSecret)) = false)
    (hcache : s.cache = some entry)
    (hfresh : w.clock s.clockReads < entry.expiresAt)
    (hok : (w.net s.netCalls).status = 200) :
    spotifyGet cfg w s endpoint params =
      (.ok (w.net s.netCalls).body,
       { s with
         netCalls := s.netCalls + 1
         clockReads := s.clockReads + 1
         log := s.log ++ [.spotifyGet endpoint params entry.token.pyStr] }) := by
  unfold spotifyGet
  rw [getSpotifyToken_path_fresh cfg w s entry hcfg hcache hfresh]
  unfold issueRequest
  simp [hok]

/-- C7: `get_artist_details_by_name` first issues one name search with
`limit = 1`. If the extracted `artists.items` value is falsy (zero items)
it returns the `None` sentinel having issued only that search (one network
call, no details request in the log). If the first item's `id` is the
string `i`, it issues exactly one details call for `/artists/i` and returns
that call's decoded JSON unchanged. (Stated under a strictly fresh cached
token, so the token fast path issues no extra network call.) -/
theorem get_artist_details_by_name_spec (cfg : Config) (w : World) (s : St)
    (name : String) (entry : CachedToken)
    (hcfg : (!(envSet cfg.spotifyClientId) || !(envSet cfg.spotifyClientSecret)) = false)
    (hcache : s.cache = some entry)
    (hfresh : w.clock s.clockReads < entry.expiresAt)
    (hsearch : (w.net s.netCalls).status = 200) :
    (∀ items : Json,
      Json.pyGetD ((assocFind (w.net s.netCalls).body "artists").getD (.obj []))
          "items" (.arr []) = .ok items →
      items.pyTruthy = false →
      get_artist_details_by_name cfg w s name =
        (.ok none,
         { s with
           netCalls := s.netCalls + 1
           clockReads := s.clockReads + 1
           log := s.log ++ [.spotifyGet "/search"
             (some [("q", .str name), ("type", .str "artist"), ("limit", .int 1)])
             entry.token.pyStr] })) ∧
    (∀ (firstArtist : Json) (rest : List Json) (i : String),
      Json.pyGetD ((assocFind (w.net s.netCalls).body "artists").getD (.obj []))
          "items" (.arr []) = .ok (.arr (firstArtist :: rest)) →
      pySubscript firstArtist "id" = .ok (.str i) →
      w.clock (s.clockReads + 1) < entry.expiresAt →
      (w.net (s.netCalls + 1)).status = 200 →
      get_artist_details_by_name cfg w s name =
        (.ok (some (w.net (s.netCalls + 1)).body),
         { s with
           netCalls := s.netCalls + 2
           clockReads := s.clockReads + 2
           log := s.log ++
             [.spotifyGet "/search"
                (some [("q", .str name), ("type", .str "artist"), ("limit", .int 1)])
                entry.token.pyStr,
              .spotifyGet ("/artists/" ++ i) none entry.token.pyStr] })) := by
  have hsrch := spotifyGet_hit_aux cfg w s "/search"
    (some [("q", .str name), ("type", .str "artist"), ("limit", .int 1)]) entry
    hcfg hcache hfresh hsearch
  constructor
  · intro items hitems hfalsy
    unfold get_artist_details_by_name search_artist_by_name
    rw [hsrch]
    simp [hitems, hfalsy]
  · intro firstArtist rest i hitems hid hfresh2 hdetails
    unfold get_artist_details_by_name search_artist_by_name
    rw [hsrch]
    simp only [hitems]
    have hdet := spotifyGet_hit_aux cfg w
      { s with
        netCalls := s.netCalls + 1
        clockReads := s.clockReads + 1
        log := s.log ++ [.spotifyGet "/search"
          (some [("q", .str name), ("type", .str "artist"), ("limit", .int 1)])
          entry.token.pyStr] }
      ("/artists/" ++ i) none entry
      hcfg (by simpa using hcache) (by simpa using hfresh2) (by simpa using hdetails)
    unfold get_artist_details
    simp only [Json.pyTruthy, List.isEmpty_cons, Bool.not_false, Bool.not_true,
      if_false, pyIndex0, hid]
    rw [show (Json.str i).pyStr = i from rfl, hdet]
    simp

theorem get_artist_details_by_name_spec_witness :
    get_artist_details_by_name cfg₀ emptySearchWorld freshSt "Metallica" =
      (.ok none,
       { freshSt with
         netCalls := freshSt.netCalls + 1
         clockReads := freshSt.clockReads + 1
         log := freshSt.log ++ [.spotifyGet "/search"
           (some [("q", .str "Metallica"), ("type", .str "artist"), ("limit", .int 1)])
           "tok0"] }) ∧
    get_artist_details_by_name cfg₀ searchWorld freshSt "Metallica" =
      (.ok (some [("id", .str "2ye2Wgw4gimLv2eAKyk1NB"), ("followers", .num 125)]),
       { freshSt with
         netCalls := freshSt.netCalls + 2
         clockReads := freshSt.clockReads + 2
         log := freshSt.log ++
           [.spotifyGet "/search"
              (some [("q", .str "Metallica"), ("type", .str "artist"), ("limit", .int 1)])
              "tok0",
            .spotifyGet "/artists/2ye2Wgw4gimLv2eAKyk1NB" none "tok0"] }) :=
  ⟨(get_artist_details_by_name_spec cfg₀ emptySearchWorld freshSt "Metallica"
      { token := .str "tok0", expiresAt := 1000 } rfl rfl (by decide) rfl).1
      (.arr []) rfl rfl,
   (get_artist_details_by_name_spec cfg₀ searchWorld freshSt "Metallica"
      { token := .str "tok0", expiresAt := 1000 } rfl rfl (by decide) rfl).2
      (.obj [("id", .str "2ye2Wgw4gimLv2eAKyk1NB"), ("name", .str "Metallica")])
      [] "2ye2Wgw4gimLv2eAKyk1NB" rfl rfl (by decide) rfl⟩

/-- Helper: cache consistency only refers to responses and clock readings
strictly before the current counters, so it is preserved when the cache is
unchanged and the counters grow. -/
theorem cacheConsistent_mono (w : World) (s s' : St)
    (hcache : s'.cache = s.cache) (hnet : s.netCalls ≤ s'.netCalls)
    (hclock : s.clockReads ≤ s'.clockReads)
    (h : cacheConsistent w s) : cacheConsistent w s' := by
  intro entry he
  rcases h entry (hcache ▸ he) with ⟨k, j, lifetime, hk, hj, hl, he2⟩
  exact ⟨k, j, lifetime, lt_of_lt_of_le hk hnet, lt_of_lt_of_le hj hclock, hl, he2⟩

/-- C2: `_get_spotify_token` either leaves the cache exactly as it was or
replaces it wholesale with an entry whose `expires_at` is the acquisition
clock reading plus the provider-declared lifetime minus 60 seconds; the
cache-consistency invariant (every populated entry has that shape) is
preserved by every call; and any token served from the cache under that
invariant is served strictly more than 60 seconds before its real expiry
(acquisition time plus declared lifetime). -/
theorem getSpotifyToken_cache_invariant (cfg : Config) (w : World) (s : St) :
    ((getSpotifyToken cfg w s).2.cache = s.cache ∨
      ∃ lifetime token,
        declaredLifetime (w.net s.netCalls) = .ok lifetime ∧
        (getSpotifyToken cfg w s).1 = .ok token ∧
        (getSpotifyToken cfg w s).2.cache =
          some { token := token
                 expiresAt :=
                   w.clock ((getSpotifyToken cfg w s).2.clockReads - 1) + (lifetime - 60) }) ∧
    (cacheConsistent w s → cacheConsistent w (getSpotifyToken cfg w s).2) ∧
    (∀ entry, cacheConsistent w s → s.cache = some entry →
      (getSpotifyToken cfg w s).2.netCalls = s.netCalls →
      (getSpotifyToken cfg w s).1 = .ok entry.token →
      ∃ k j lifetime, k < s.netCalls ∧ j < s.clockReads ∧
        declaredLifetime (w.net k) = .ok lifetime ∧
        entry.expiresAt = w.clock j + (lifetime - 60) ∧
        w.clock s.clockReads + 60 < w.clock j + lifetime) := by
  cases hcfg : (!(envSet cfg.spotifyClientId) || !(envSet cfg.spotifyClientSecret)) with
  | true =>
    rw [getSpotifyToken_path_config cfg w s hcfg]
    refine ⟨Or.inl rfl, fun h => h, ?_⟩
    intro entry _ _ _ hok
    exact absurd hok (by simp)
  | false =>
    cases hc : s.cache with
    | none =>
      rw [getSpotifyToken_path_none cfg w s hcfg hc]
      rcases spotifyTokenRefresh_cases cfg w s with
        ⟨hcache, hnet, hclock, e, herr⟩ | ⟨lifetime, token, hl, hok, hcache, hnet, hclock⟩
      · refine ⟨Or.inl (hcache.trans hc), ?_, ?_⟩
        · intro h
          exact cacheConsistent_mono w s _ hcache (by omega) (by omega) h
        · intro entry _ hentry _ _
          exact Option.noConfusion hentry
      · refine ⟨Or.inr ⟨lifetime, token, hl, hok, ?_⟩, ?_, ?_⟩
        · rw [hcache, hclock]
          simp
        · intro _ entry he
          rw [hcache] at he
          cases he
          exact ⟨s.netCalls, s.clockReads, lifetime, by omega, by omega, hl, rfl⟩
        · intro entry _ _ hnc _
          rw [hnet] at hnc
          omega
    | some entry₀ =>
      by_cases hf : w.clock s.clockReads < entry₀.expiresAt
      · rw [getSpotifyToken_path_fresh cfg w s entry₀ hcfg hc hf]
        refine ⟨Or.inl hc, ?_, ?_⟩
        · intro h
          exact cacheConsistent_mono w s _ rfl (Nat.le_refl _) (Nat.le_succ _) h
        · intro entry hcons hentry _ _
          cases hentry
          rcases hcons entry₀ hc with ⟨k, j, lifetime, hk, hj, hl, he⟩
          rw [he] at hf
          exact ⟨k, j, lifetime, hk, hj, hl, he, by omega⟩
      · have hle : entry₀.expiresAt ≤ w.clock s.clockReads := not_lt.mp hf
        rw [getSpotifyToken_path_stale cfg w s entry₀ hcfg hc hle]
        rcases spotifyTokenRefresh_cases cfg w { s with clockReads := s.clockReads + 1 } with
          ⟨hcache, hnet, hclock, e, herr⟩ | ⟨lifetime, token, hl, hok, hcache, hnet, hclock⟩
        · have hcache' : (spotifyTokenRefresh cfg w
              { s with clockReads := s.clockReads + 1 }).2.cache = s.cache := hcache
          have hnet' : (spotifyTokenRefresh cfg w
              { s with clockReads := s.clockReads + 1 }).2.netCalls = s.netCalls + 1 := hnet
          have hclock' : (spotifyTokenRefresh cfg w
              { s with clockReads := s.clockReads + 1 }).2.clockReads = s.clockReads + 1 := hclock
          refine ⟨Or.inl (hcache'.trans hc), ?_, ?_⟩
          · intro h
            exact cacheConsistent_mono w s _ hcache' (by omega) (by omega) h
          · intro entry _ _ _ hok
            rw [herr] at hok
            exact Except.noConfusion hok
        · have hl' : declaredLifetime (w.net s.netCalls) = .ok lifetime := hl
          have hcache' : (spotifyTokenRefresh cfg w
              { s with clockReads := s.clockReads + 1 }).2.cache =
              some { token := token,
                     expiresAt := w.clock (s.clockReads + 1) + (lifetime - 60) } := hcache
          have hnet' : (spotifyTokenRefresh cfg w
              { s with clockReads := s.clockReads + 1 }).2.netCalls = s.netCalls + 1 := hnet
          have hclock' : (spotifyTokenRefresh cfg w
              { s with clockReads := s.clockReads + 1 }).2.clockReads = s.clockReads + 2 := hclock
          refine ⟨Or.inr ⟨lifetime, token, hl', hok, ?_⟩, ?_, ?_⟩
          · rw [hcache', hclock']
            simp
          · intro _ entry he
            rw [hcache'] at he
            cases he
            exact ⟨s.netCalls, s.clockReads + 1, lifetime, by omega, by omega, hl', rfl⟩
          · intro entry _ _ hnc _
            rw [hnet'] at hnc
            omega

theorem getSpotifyToken_cache_invariant_witness :
    cacheConsistent tokenWorld (getSpotifyToken cfg₀ tokenWorld st₀).2 :=
  (getSpotifyToken_cache_invariant cfg₀ tokenWorld st₀).2.1
    (fun _ h => Option.noConfusion h)

end LastfmSpotify
